import Mathlib

/-!
Shallow embedding of `pkg/operations/crl.go` from 3scale/aws-cvpn-pki-manager.

External collaborators (Vault PKI service, AWS Client VPN gateway) are modelled
by an `Env` record fixing the outcome of each remote call.  The operations
`GetCRL`, `UpdateCRL` and `RotateCRL` are translated from the Go source
statement by statement; besides their Go return value they produce a trace of
the external calls they attempted, so that claims about calls that must or
must not happen can be stated.

Go specifics kept faithfully:
  * `GetCRL` returns `data, nil` after `ioutil.ReadAll`, discarding the read
    error (crl.go line 31).
  * `UpdateCRL` never checks the error returned by `GetCRL` (crl.go lines
    67-72); the next `err` check only happens after `err` has been
    overwritten by the gateway export call, and `string(crl)` of a nil slice
    is the empty string.
  * The gateway read returns a struct whose CRL field is a possibly nil
    string pointer; the source guards the dereference with a reflection
    `IsValid` check (crl.go line 88).  The field is modelled as
    `Option Bytes`, and the guarded dereference as `diffStepGuarded`, which
    can in principle fault (`GoFault.nilDereference`) exactly when a `none`
    is dereferenced.
-/

namespace CVPN

/-- Go `error` values, abstracted as strings. -/
abbrev Err := String

/-- Go `[]byte` contents; the source only ever compares them after a
`string(...)` conversion, so a string model is exact. -/
abbrev Bytes := String

/-- A certificate as seen by the convergence logic: an opaque identifier plus
an issuance timestamp used for recency ordering. -/
structure Cert where
  id : Nat
  issuedAt : Nat
deriving DecidableEq, Repr

/-- One external call attempted by the operations, recorded in the trace. -/
inductive Action where
  | listUsersCall
  | revokeUserCall (crts : List Cert)
  | fetchCRLCall
  | exportCRLCall
  | importCRLCall (crl : Bytes)
  | rotateCall
deriving DecidableEq, Repr

/-- The HTTP response to the Vault `crl/pem` request: the bytes `ioutil.ReadAll`
produced and the error it reported (possibly none). -/
structure VaultResp where
  body : Bytes
  readErr : Option Err
deriving DecidableEq, Repr

/-- Outcomes of the external calls: Vault user enumeration (`ListUsers`), the
per-user revocation call (`revokeUserCertificates`, whose transport outcome is
an oracle here), the Vault CRL request, the gateway CRL export (read), the
gateway CRL import (write), and the Vault CRL rotate request.  The gateway
read yields `none` when no CRL was ever installed, mirroring the nil
`CertificateRevocationList` pointer of the AWS response struct. -/
structure Env where
  listUsers : Except Err (List (List Cert))
  revokeUser : List Cert → Except Err Unit
  crlRequest : Except Err VaultResp
  exportCRL : Except Err (Option Bytes)
  importCRL : Bytes → Except Err Unit
  rotateReq : Except Err Unit

/-- `GetCRL` (crl.go lines 23-32): raw request to `crl/pem`; on transport
failure the error is returned; otherwise the body bytes are returned together
with a `nil` error — the `ioutil.ReadAll` error is discarded, exactly as the
source writes `return data, nil`. -/
def GetCRL (env : Env) : Except Err Bytes :=
  match env.crlRequest with
  | .error e => .error e
  | .ok rsp => .ok rsp.body

/-- The `crl` variable of `UpdateCRL` after the call to `GetCRL` (crl.go line
67): the source does not check the returned error, so on failure `crl` is the
nil slice, whose `string(...)` conversion is `""`. -/
def fetchedBytes (env : Env) : Bytes :=
  match GetCRL env with
  | .ok b => b
  | .error _ => ""

/-- The revocation loop of `UpdateCRL` (crl.go lines 59-64): one
`revokeUserCertificates` call per user, returning the first error and stopping
there. -/
def convergeRevocations (rev : List Cert → Except Err Unit) :
    List (List Cert) → Except Err Unit × List Action
  | [] => (.ok (), [])
  | crts :: rest =>
    match rev crts with
    | .error e => (.error e, [.revokeUserCall crts])
    | .ok _ =>
      let r := convergeRevocations rev rest
      (r.1, .revokeUserCall crts :: r.2)

/-- A gateway import of `crl` (crl.go lines 91-99 and 105-113): attempt the
import, return its error if any, otherwise return the fetched CRL. -/
def pushStep (imp : Bytes → Except Err Unit) (crl : Bytes) :
    Except Err Bytes × List Action :=
  match imp crl with
  | .error e => (.error e, [.importCRLCall crl])
  | .ok _ => (.ok crl, [.importCRLCall crl])

/-- The diff-and-push step of `UpdateCRL` (crl.go lines 88-114): if a CRL is
installed, push exactly when it differs from the fetched one; if none was ever
installed, push unconditionally. -/
def diffStep (imp : Bytes → Except Err Unit) (crl : Bytes) :
    Option Bytes → Except Err Bytes × List Action
  | some s => if s ≠ crl then pushStep imp crl else (.ok crl, [])
  | none => pushStep imp crl

/-- A Go runtime fault; dereferencing a nil string pointer raises one. -/
inductive GoFault where
  | nilDereference
deriving DecidableEq, Repr

/-- Dereference of the `CertificateRevocationList` string pointer: faults on a
nil pointer. -/
def derefCRLField : Option Bytes → Except GoFault Bytes
  | none => .error .nilDereference
  | some s => .ok s

/-- The diff-and-push step with the reflection guard of crl.go line 88 made
explicit: the pointer is dereferenced only under the `IsValid` check, so a
fault is possible in the model exactly where the unguarded source would
fault. -/
def diffStepGuarded (imp : Bytes → Except Err Unit) (crl : Bytes)
    (inst : Option Bytes) : Except GoFault (Except Err Bytes × List Action) :=
  if inst.isSome then
    match derefCRLField inst with
    | .error f => .error f
    | .ok s => .ok (if s ≠ crl then pushStep imp crl else (.ok crl, []))
  else .ok (pushStep imp crl)

/-- `UpdateCRL` (crl.go lines 45-117), translated statement by statement:
enumerate users (abort on error), revoke per user (abort on error), fetch the
CRL (error NOT checked, as in the source), read the gateway CRL (abort on
error), then diff and push. -/
def UpdateCRL (env : Env) : Except Err Bytes × List Action :=
  match env.listUsers with
  | .error e => (.error e, [.listUsersCall])
  | .ok users =>
    match (convergeRevocations env.revokeUser users).1 with
    | .error e =>
      (.error e, .listUsersCall :: (convergeRevocations env.revokeUser users).2)
    | .ok _ =>
      match env.exportCRL with
      | .error e =>
        (.error e,
         .listUsersCall :: (convergeRevocations env.revokeUser users).2 ++
           [.fetchCRLCall, .exportCRLCall])
      | .ok inst =>
        ((diffStep env.importCRL (fetchedBytes env) inst).1,
         .listUsersCall :: (convergeRevocations env.revokeUser users).2 ++
           [.fetchCRLCall, .exportCRLCall] ++
           (diffStep env.importCRL (fetchedBytes env) inst).2)

/-- `RotateCRL` (crl.go lines 127-146): raw request to `crl/rotate`, abort on
error; then `UpdateCRL`, abort on error; else ok. -/
def RotateCRL (env : Env) : Except Err Unit × List Action :=
  match env.rotateReq with
  | .error e => (.error e, [.rotateCall])
  | .ok _ =>
    match (UpdateCRL env).1 with
    | .error e => (.error e, .rotateCall :: (UpdateCRL env).2)
    | .ok _ => (.ok (), .rotateCall :: (UpdateCRL env).2)

/-- Whether an action is a gateway import (write). -/
def isImport : Action → Bool
  | .importCRLCall _ => true
  | _ => false

/-- Whether an action is a Vault CRL rotation request. -/
def isRotate : Action → Bool
  | .rotateCall => true
  | _ => false

/-- Number of gateway import (push) calls in a trace. -/
def importCount (tr : List Action) : Nat := tr.countP isImport

/-- Number of rotate calls in a trace. -/
def rotateCount (tr : List Action) : Nat := tr.countP isRotate

/-- Modelled from the spec: the repository function `revokeUserCertificates`
(called by `UpdateCRL` at crl.go line 60) is not under src/.  Spec section 4.2:
the maximal issuance timestamp of a certificate list. -/
def maxIssued : List Cert → Nat
  | [] => 0
  | c :: cs => max c.issuedAt (maxIssued cs)

/-- Modelled from the spec: the keep-newest selection of section 4.2 — revoke
every certificate except the single latest one; on equal timestamps the
enumerator order is authoritative with the last entry counting as most recent.
Each certificate is paired with `true` when this run revokes it. -/
def revokeKeepNewest : List Cert → List (Cert × Bool)
  | [] => []
  | [c] => [(c, false)]
  | c :: d :: cs =>
    if maxIssued (d :: cs) ≥ c.issuedAt then
      (c, true) :: revokeKeepNewest (d :: cs)
    else
      (c, false) :: (d :: cs).map (fun x => (x, true))

/-- Modelled from the spec: `revokeUserCertificates` over one user, spec
section 4.2 — in revoke-all mode every certificate is revoked; in keep-newest
mode (the mode `UpdateCRL` uses, passing `false`) all but the latest are. -/
def revokeUserCertificates (crts : List Cert) (revokeAll : Bool) :
    List (Cert × Bool) :=
  if revokeAll then crts.map (fun c => (c, true)) else revokeKeepNewest crts

/-- An environment in which every external call succeeds; used to instantiate
the theorems below at concrete inputs. -/
def okEnv : Env where
  listUsers := .ok [[⟨1, 1⟩, ⟨2, 5⟩]]
  revokeUser := fun _ => .ok ()
  crlRequest := .ok ⟨"PEM", none⟩
  exportCRL := .ok (some "OLD")
  importCRL := fun _ => .ok ()
  rotateReq := .ok ()

/-- Environment exhibiting the unchecked `GetCRL` error of crl.go line 67:
user enumeration succeeds with no users, the Vault CRL request fails, the
gateway read and write succeed. -/
def envFetchFail : Env :=
  { okEnv with listUsers := .ok [], crlRequest := .error "vault down" }

/-- Environment whose Vault CRL response carries a read error together with
partially read bytes. -/
def envReadErr : Env :=
  { okEnv with crlRequest := .ok ⟨"PARTIAL", some "read aborted"⟩ }

/-- The trace of a push is exactly one gateway import call, whatever its
outcome. -/
theorem pushStep_trace (imp : Bytes → Except Err Unit) (crl : Bytes) :
    (pushStep imp crl).2 = [Action.importCRLCall crl] := by
  cases h : imp crl <;> simp [pushStep, h]

/-- The diff step either performs no call or exactly one import of the fetched
bytes. -/
theorem diffStep_trace (imp : Bytes → Except Err Unit) (crl : Bytes)
    (inst : Option Bytes) :
    (diffStep imp crl inst).2 = [] ∨
    (diffStep imp crl inst).2 = [Action.importCRLCall crl] := by
  cases inst with
  | none => exact Or.inr (pushStep_trace imp crl)
  | some s =>
    by_cases h : s = crl
    · exact Or.inl (by simp [diffStep, h])
    · exact Or.inr (by simp [diffStep, h, pushStep_trace])

/-- When installed and fetched differ (or nothing is installed), the diff step
pushes exactly the fetched bytes. -/
theorem diffStep_trace_ne (imp : Bytes → Except Err Unit) (crl : Bytes)
    (inst : Option Bytes) (h : inst ≠ some crl) :
    (diffStep imp crl inst).2 = [Action.importCRLCall crl] := by
  cases inst with
  | none => exact pushStep_trace imp crl
  | some s =>
    have hs : ¬s = crl := fun hc => h (by rw [hc])
    simp [diffStep, hs, pushStep_trace]

/-- Import count of the diff step: zero exactly when the installed CRL equals
the fetched one. -/
theorem importCount_diffStep (imp : Bytes → Except Err Unit) (crl : Bytes)
    (inst : Option Bytes) :
    importCount (diffStep imp crl inst).2 =
      if inst = some crl then 0 else 1 := by
  by_cases h : inst = some crl
  · subst h; simp [diffStep, importCount]
  · simp [h, importCount, diffStep_trace_ne imp crl inst h, isImport]

/-- When the gateway import succeeds, the diff step returns the fetched
bytes. -/
theorem diffStep_fst_ok (imp : Bytes → Except Err Unit) (crl : Bytes)
    (inst : Option Bytes) (h : imp crl = .ok ()) :
    (diffStep imp crl inst).1 = .ok crl := by
  cases inst with
  | none => simp [diffStep, pushStep, h]
  | some s =>
    by_cases hs : s = crl
    · simp [diffStep, hs]
    · simp [diffStep, hs, pushStep, h]

/-- The revocation loop stops at the first failing user: the calls attempted
are exactly those for the users before it plus the failing one. -/
theorem convergeRevocations_error (rev : List Cert → Except Err Unit)
    (e : Err) (u : List Cert) (post : List (List Cert)) :
    ∀ pre : List (List Cert), (∀ v ∈ pre, rev v = .ok ()) →
      rev u = .error e →
      convergeRevocations rev (pre ++ u :: post) =
        (.error e, pre.map Action.revokeUserCall ++ [.revokeUserCall u]) := by
  intro pre
  induction pre with
  | nil => intro _ hu; simp [convergeRevocations, hu]
  | cons p ps ih =>
    intro hpre hu
    have hp : rev p = .ok () := hpre p (by simp)
    have hrec := ih (fun v hv => hpre v (by simp [hv])) hu
    simp [convergeRevocations, hp, hrec]

/-- The revocation loop only ever issues per-user revocation calls. -/
theorem convergeRevocations_countP (rev : List Cert → Except Err Unit)
    (p : Action → Bool) (h : ∀ crts, p (Action.revokeUserCall crts) = false) :
    ∀ us : List (List Cert), (convergeRevocations rev us).2.countP p = 0 := by
  intro us
  induction us with
  | nil => simp [convergeRevocations]
  | cons crts rest ih =>
    cases hr : rev crts with
    | error e => simp [convergeRevocations, hr, h]
    | ok _ => simp [convergeRevocations, hr, h, ih, List.countP_cons]

/-- When steps 1, 2 and 4 succeed, `UpdateCRL` reduces to the diff step, with
the full trace spelled out. -/
theorem updateCRL_reached_diff (env : Env) (us : List (List Cert))
    (inst : Option Bytes)
    (h1 : env.listUsers = .ok us)
    (h2 : (convergeRevocations env.revokeUser us).1 = .ok ())
    (h4 : env.exportCRL = .ok inst) :
    UpdateCRL env =
      ((diffStep env.importCRL (fetchedBytes env) inst).1,
       .listUsersCall :: (convergeRevocations env.revokeUser us).2 ++
         [.fetchCRLCall, .exportCRLCall] ++
         (diffStep env.importCRL (fetchedBytes env) inst).2) := by
  simp [UpdateCRL, h1, h2, h4]

/-- When the Vault CRL request succeeds, the `crl` variable of `UpdateCRL`
holds the response body. -/
theorem fetchedBytes_eq (env : Env) (rsp : VaultResp)
    (h : env.crlRequest = .ok rsp) : fetchedBytes env = rsp.body := by
  simp [fetchedBytes, GetCRL, h]

/-- Counting over the whole `UpdateCRL` trace, for a predicate that ignores
everything but imports. -/
theorem updateCRL_countP_le_one (env : Env) (p : Action → Bool)
    (h1 : p .listUsersCall = false)
    (h2 : ∀ crts, p (.revokeUserCall crts) = false)
    (h3 : p .fetchCRLCall = false)
    (h4 : p .exportCRLCall = false) :
    (UpdateCRL env).2.countP p ≤ 1 := by
  unfold UpdateCRL
  cases hu : env.listUsers with
  | error e => simp [h1]
  | ok users =>
    cases hc : (convergeRevocations env.revokeUser users).1 with
    | error e =>
      simp only [hc, List.countP_cons, h1]
      simp [convergeRevocations_countP env.revokeUser p h2]
    | ok _ =>
      cases he : env.exportCRL with
      | error e =>
        simp only [hc, he, List.countP_cons, List.countP_append, h1, h3, h4]
        simp [List.countP_cons, h3, h4,
          convergeRevocations_countP env.revokeUser p h2]
      | ok inst =>
        rcases diffStep_trace env.importCRL (fetchedBytes env) inst with hd | hd <;>
          · simp only [hc, he, hd]
            simp [List.countP_cons, List.countP_append, h1, h3, h4,
              convergeRevocations_countP env.revokeUser p h2]
            try (split <;> simp)

/-- A predicate false on every action kind `UpdateCRL` can emit counts to
zero over its trace. -/
theorem updateCRL_countP_zero (env : Env) (p : Action → Bool)
    (h1 : p .listUsersCall = false)
    (h2 : ∀ crts, p (.revokeUserCall crts) = false)
    (h3 : p .fetchCRLCall = false)
    (h4 : p .exportCRLCall = false)
    (h5 : ∀ b, p (.importCRLCall b) = false) :
    (UpdateCRL env).2.countP p = 0 := by
  unfold UpdateCRL
  cases hu : env.listUsers with
  | error e => simp [h1]
  | ok users =>
    cases hc : (convergeRevocations env.revokeUser users).1 with
    | error e =>
      simp only [hc, List.countP_cons, h1]
      simp [convergeRevocations_countP env.revokeUser p h2]
    | ok _ =>
      cases he : env.exportCRL with
      | error e =>
        simp only [hc, he]
        simp [List.countP_cons, List.countP_append, h1, h3, h4,
          convergeRevocations_countP env.revokeUser p h2]
      | ok inst =>
        rcases diffStep_trace env.importCRL (fetchedBytes env) inst with hd | hd <;>
          simp only [hc, he, hd] <;>
          simp [List.countP_cons, List.countP_append, h1, h3, h4, h5,
            convergeRevocations_countP env.revokeUser p h2]

/-- `UpdateCRL` never issues a rotate request. -/
theorem rotateCount_updateCRL (env : Env) :
    rotateCount (UpdateCRL env).2 = 0 :=
  updateCRL_countP_zero env isRotate rfl (fun _ => rfl) rfl rfl (fun _ => rfl)

/-- Claim C8: when user enumeration fails, `UpdateCRL` returns that error at
once; the trace holds only the enumeration call, so the per-certificate
revocation logic is never invoked. -/
theorem updateCRL_enumeration_failure_aborts (env : Env) (e : Err)
    (h : env.listUsers = .error e) :
    UpdateCRL env = (.error e, [.listUsersCall]) ∧
    ∀ crts, Action.revokeUserCall crts ∉ (UpdateCRL env).2 := by
  have heq : UpdateCRL env = (.error e, [.listUsersCall]) := by
    simp [UpdateCRL, h]
  exact ⟨heq, fun crts => by simp [heq]⟩

/-- Concrete instance of C8: enumeration fails with "enum failed". -/
theorem updateCRL_enumeration_failure_aborts_witness :
    UpdateCRL { okEnv with listUsers := .error "enum failed" } =
      (.error "enum failed", [.listUsersCall]) :=
  (updateCRL_enumeration_failure_aborts
    { okEnv with listUsers := .error "enum failed" } "enum failed" rfl).1

/-- Claim C7: when the revocation call for some user fails, `UpdateCRL`
aborts with that error; the trace holds exactly the enumeration call, the
revocation calls for the preceding users and the failing one — so no
revocation call for subsequent users, no CRL fetch, and no gateway
interaction. -/
theorem updateCRL_revoke_failure_aborts (env : Env)
    (pre post : List (List Cert)) (u : List Cert) (e : Err)
    (h1 : env.listUsers = .ok (pre ++ u :: post))
    (h2 : ∀ v ∈ pre, env.revokeUser v = .ok ())
    (h3 : env.revokeUser u = .error e) :
    UpdateCRL env =
      (.error e,
       .listUsersCall ::
         (pre.map Action.revokeUserCall ++ [.revokeUserCall u])) ∧
    Action.fetchCRLCall ∉ (UpdateCRL env).2 ∧
    Action.exportCRLCall ∉ (UpdateCRL env).2 ∧
    ∀ b, Action.importCRLCall b ∉ (UpdateCRL env).2 := by
  have hcv := convergeRevocations_error env.revokeUser e u post pre h2 h3
  have heq : UpdateCRL env =
      (.error e,
       .listUsersCall ::
         (pre.map Action.revokeUserCall ++ [.revokeUserCall u])) := by
    simp [UpdateCRL, h1, hcv]
  refine ⟨heq, ?_, ?_, ?_⟩
  · rw [heq]; simp
  · rw [heq]; simp
  · intro b; rw [heq]; simp

/-- Concrete instance of C7: the single user's revocation fails. -/
theorem updateCRL_revoke_failure_aborts_witness :
    UpdateCRL
        { okEnv with revokeUser := fun _ => .error "revoke failed" } =
      (.error "revoke failed",
       [.listUsersCall, .revokeUserCall [⟨1, 1⟩, ⟨2, 5⟩]]) :=
  (updateCRL_revoke_failure_aborts
    { okEnv with revokeUser := fun _ => .error "revoke failed" }
    [] [] [⟨1, 1⟩, ⟨2, 5⟩] "revoke failed" rfl (by simp) rfl).1

/-- Claim C5 (code bug): `GetCRL` discards the body-read error — the Vault
request succeeds, reading the body fails with "read aborted", yet `GetCRL`
returns the partial bytes with no error, because the source ends with
`return data, nil`. -/
theorem getCRL_discards_read_error :
    envReadErr.crlRequest =
      .ok { body := "PARTIAL", readErr := some "read aborted" } ∧
    GetCRL envReadErr = .ok "PARTIAL" := ⟨rfl, rfl⟩

/-- Claim C1 (code bug): `UpdateCRL` does not check the error returned by
`GetCRL`.  With enumeration succeeding, the Vault CRL request failing, and
the gateway calls succeeding with installed CRL "OLD", the operation does not
abort: it pushes the empty string (the `string(...)` image of the nil slice)
to the gateway and returns success. -/
theorem updateCRL_pushes_after_fetch_failure :
    envFetchFail.crlRequest = .error "vault down" ∧
    UpdateCRL envFetchFail =
      (.ok "",
       [.listUsersCall, .fetchCRLCall, .exportCRLCall, .importCRLCall ""]) ∧
    importCount (UpdateCRL envFetchFail).2 = 1 := by
  refine ⟨rfl, ?_, ?_⟩ <;> rfl

/-- Claim C9: `RotateCRL` issues the rotate request first; if it fails the
operation aborts with that error and nothing else is attempted; if it
succeeds, `UpdateCRL` runs and its error (if any) is returned; the rotate
call appears exactly once in the trace — a successful rotation is never
undone. -/
theorem rotateCRL_sequencing (env : Env) :
    (∀ e, env.rotateReq = .error e →
      RotateCRL env = (.error e, [.rotateCall])) ∧
    (env.rotateReq = .ok () →
      (RotateCRL env).2 = .rotateCall :: (UpdateCRL env).2 ∧
      (∀ e, (UpdateCRL env).1 = .error e → (RotateCRL env).1 = .error e) ∧
      (∀ b, (UpdateCRL env).1 = .ok b → (RotateCRL env).1 = .ok ()) ∧
      rotateCount (RotateCRL env).2 = 1) := by
  constructor
  · intro e he; simp [RotateCRL, he]
  · intro hok
    refine ⟨?_, ?_, ?_, ?_⟩
    · cases hu : (UpdateCRL env).1 <;> simp [RotateCRL, hok, hu]
    · intro e hu; simp [RotateCRL, hok, hu]
    · intro b hu; simp [RotateCRL, hok, hu]
    · have h2 : (RotateCRL env).2 = .rotateCall :: (UpdateCRL env).2 := by
        cases hu : (UpdateCRL env).1 <;> simp [RotateCRL, hok, hu]
      simp [h2, rotateCount, List.countP_cons, isRotate]
      have := rotateCount_updateCRL env
      simpa [rotateCount] using this

/-- Concrete instance of C9: every call succeeds; the rotate call is first
and unique and the operation returns ok. -/
theorem rotateCRL_sequencing_witness :
    RotateCRL okEnv =
      (.ok (),
       [.rotateCall, .listUsersCall, .revokeUserCall [⟨1, 1⟩, ⟨2, 5⟩],
        .fetchCRLCall, .exportCRLCall, .importCRLCall "PEM"]) ∧
    rotateCount (RotateCRL okEnv).2 = 1 := by
  have h := (rotateCRL_sequencing okEnv).2 rfl
  exact ⟨by rfl, h.2.2.2⟩

/-- When the diff step is reached, the import count of the whole `UpdateCRL`
trace is zero exactly when the installed CRL equals the fetched one, and one
otherwise. -/
theorem importCount_updateCRL (env : Env) (us : List (List Cert))
    (inst : Option Bytes)
    (h1 : env.listUsers = .ok us)
    (h2 : (convergeRevocations env.revokeUser us).1 = .ok ())
    (h4 : env.exportCRL = .ok inst) :
    importCount (UpdateCRL env).2 =
      if inst = some (fetchedBytes env) then 0 else 1 := by
  rw [updateCRL_reached_diff env us inst h1 h2 h4,
    ← importCount_diffStep env.importCRL (fetchedBytes env) inst]
  simp [importCount, List.countP_cons, List.countP_append, isImport,
    convergeRevocations_countP env.revokeUser isImport (fun _ => rfl) us]

/-- Claim C10: each `UpdateCRL` invocation makes at most one gateway import
call, and when the diff step is reached the count is exactly zero in the
equal branch and exactly one in the unequal and never-installed branches;
the trace records every external call the source makes, and imports are its
only gateway writes. -/
theorem updateCRL_at_most_one_import (env : Env) :
    importCount (UpdateCRL env).2 ≤ 1 ∧
    (∀ us inst, env.listUsers = .ok us →
      (convergeRevocations env.revokeUser us).1 = .ok () →
      env.exportCRL = .ok inst →
      importCount (UpdateCRL env).2 =
        if inst = some (fetchedBytes env) then 0 else 1) := by
  exact ⟨updateCRL_countP_le_one env isImport rfl (fun _ => rfl) rfl rfl,
    fun us inst h1 h2 h4 => importCount_updateCRL env us inst h1 h2 h4⟩

/-- Concrete instance of C10: installed "OLD" differs from fetched "PEM", so
exactly one import. -/
theorem updateCRL_at_most_one_import_witness :
    importCount (UpdateCRL okEnv).2 ≤ 1 ∧
    importCount (UpdateCRL okEnv).2 = 1 := by
  have h := updateCRL_at_most_one_import okEnv
  refine ⟨h.1, ?_⟩
  have h2 := h.2 [[⟨1, 1⟩, ⟨2, 5⟩]] (some "OLD") rfl rfl rfl
  simpa using h2

/-- Claim C2: once the diff step is reached with fetched bytes from a
successful Vault read: equal installed CRL means no push and the fetched CRL
is returned; unequal or absent means the exact fetched bytes are pushed, and
on import success the fetched CRL is returned. -/
theorem updateCRL_diff_behaviour (env : Env) (us : List (List Cert))
    (rsp : VaultResp) (inst : Option Bytes)
    (h1 : env.listUsers = .ok us)
    (h2 : (convergeRevocations env.revokeUser us).1 = .ok ())
    (h3 : env.crlRequest = .ok rsp)
    (h4 : env.exportCRL = .ok inst) :
    (inst = some rsp.body →
      importCount (UpdateCRL env).2 = 0 ∧ (UpdateCRL env).1 = .ok rsp.body) ∧
    (inst ≠ some rsp.body →
      Action.importCRLCall rsp.body ∈ (UpdateCRL env).2 ∧
      (env.importCRL rsp.body = .ok () → (UpdateCRL env).1 = .ok rsp.body)) := by
  have hf : fetchedBytes env = rsp.body := fetchedBytes_eq env rsp h3
  have heq := updateCRL_reached_diff env us inst h1 h2 h4
  constructor
  · intro he
    constructor
    · rw [importCount_updateCRL env us inst h1 h2 h4]
      simp [hf, he]
    · rw [heq]
      show (diffStep env.importCRL (fetchedBytes env) inst).1 = .ok rsp.body
      rw [hf, he]
      simp [diffStep]
  · intro he
    have hne : inst ≠ some (fetchedBytes env) := by rw [hf]; exact he
    constructor
    · have hd := diffStep_trace_ne env.importCRL (fetchedBytes env) inst hne
      rw [hf] at hd
      rw [heq, hf, hd]
      simp
    · intro himp
      rw [heq]
      show (diffStep env.importCRL (fetchedBytes env) inst).1 = .ok rsp.body
      rw [hf]
      exact diffStep_fst_ok env.importCRL rsp.body inst himp

/-- Concrete instance of C2: installed "OLD" differs from fetched "PEM"; the
push carries exactly "PEM" and the run returns it. -/
theorem updateCRL_diff_behaviour_witness :
    Action.importCRLCall "PEM" ∈ (UpdateCRL okEnv).2 ∧
    (UpdateCRL okEnv).1 = .ok "PEM" := by
  have h := (updateCRL_diff_behaviour okEnv [[⟨1, 1⟩, ⟨2, 5⟩]] ⟨"PEM", none⟩
    (some "OLD") rfl rfl rfl rfl).2 (by simp)
  exact ⟨h.1, h.2 rfl⟩

/-- Claim C6: two consecutive `UpdateCRL` runs over identical external state,
the gateway state of the second being what the first left installed, push at
most once in total: the second run finds the fetched CRL already installed
and performs no import. -/
theorem updateCRL_second_run_no_push (env : Env) (us : List (List Cert))
    (rsp : VaultResp) (inst : Option Bytes)
    (h1 : env.listUsers = .ok us)
    (h2 : (convergeRevocations env.revokeUser us).1 = .ok ())
    (h3 : env.crlRequest = .ok rsp)
    (h4 : env.exportCRL = .ok inst)
    (h5 : ∀ b, env.importCRL b = .ok ()) :
    (UpdateCRL env).1 = .ok rsp.body ∧
    importCount (UpdateCRL { env with exportCRL := .ok (some rsp.body) }).2 = 0 ∧
    (UpdateCRL { env with exportCRL := .ok (some rsp.body) }).1 = .ok rsp.body ∧
    importCount (UpdateCRL env).2 +
      importCount (UpdateCRL { env with exportCRL := .ok (some rsp.body) }).2
      ≤ 1 := by
  have hf : fetchedBytes env = rsp.body := fetchedBytes_eq env rsp h3
  have hf2 : fetchedBytes { env with exportCRL := .ok (some rsp.body) } =
      rsp.body := fetchedBytes_eq _ rsp h3
  have hrun1 : (UpdateCRL env).1 = .ok rsp.body := by
    rw [updateCRL_reached_diff env us inst h1 h2 h4]
    show (diffStep env.importCRL (fetchedBytes env) inst).1 = .ok rsp.body
    rw [hf]
    exact diffStep_fst_ok env.importCRL rsp.body inst (h5 rsp.body)
  have hcnt2 : importCount
      (UpdateCRL { env with exportCRL := .ok (some rsp.body) }).2 = 0 := by
    rw [importCount_updateCRL { env with exportCRL := .ok (some rsp.body) }
      us (some rsp.body) h1 h2 rfl]
    simp [hf2]
  refine ⟨hrun1, hcnt2, ?_, ?_⟩
  · rw [updateCRL_reached_diff { env with exportCRL := .ok (some rsp.body) }
      us (some rsp.body) h1 h2 rfl]
    show (diffStep env.importCRL
      (fetchedBytes { env with exportCRL := .ok (some rsp.body) })
      (some rsp.body)).1 = .ok rsp.body
    rw [hf2]
    simp [diffStep]
  · have hle := updateCRL_countP_le_one env isImport rfl (fun _ => rfl) rfl rfl
    rw [hcnt2]
    simpa [importCount] using hle

/-- Concrete instance of C6: the first run pushes "PEM" over "OLD"; the
second run, with "PEM" installed, pushes nothing. -/
theorem updateCRL_second_run_no_push_witness :
    (UpdateCRL okEnv).1 = .ok "PEM" ∧
    importCount (UpdateCRL { okEnv with exportCRL := .ok (some "PEM") }).2 = 0 ∧
    importCount (UpdateCRL okEnv).2 +
      importCount (UpdateCRL { okEnv with exportCRL := .ok (some "PEM") }).2
      ≤ 1 := by
  have h := updateCRL_second_run_no_push okEnv [[⟨1, 1⟩, ⟨2, 5⟩]] ⟨"PEM", none⟩
    (some "OLD") rfl rfl rfl rfl (fun _ => rfl)
  exact ⟨h.1, h.2.1, h.2.2.2⟩

/-- Claim C4: the guarded dereference of the gateway response never faults
(`diffStepGuarded` always returns the plain `diffStep` result), the
never-installed gateway state leads to a push of the fetched bytes, and an
installed empty string goes through the ordinary byte comparison. -/
theorem updateCRL_absent_vs_empty (env : Env) (us : List (List Cert))
    (rsp : VaultResp)
    (h1 : env.listUsers = .ok us)
    (h2 : (convergeRevocations env.revokeUser us).1 = .ok ())
    (h3 : env.crlRequest = .ok rsp) :
    (∀ imp crl inst,
      diffStepGuarded imp crl inst = .ok (diffStep imp crl inst)) ∧
    (env.exportCRL = .ok none →
      Action.importCRLCall rsp.body ∈ (UpdateCRL env).2 ∧
      importCount (UpdateCRL env).2 = 1) ∧
    (env.exportCRL = .ok (some "") →
      importCount (UpdateCRL env).2 = if rsp.body = "" then 0 else 1) := by
  have hf : fetchedBytes env = rsp.body := fetchedBytes_eq env rsp h3
  refine ⟨?_, ?_, ?_⟩
  · intro imp crl inst
    cases inst <;> simp [diffStepGuarded, derefCRLField, diffStep]
  · intro he
    constructor
    · have hd := diffStep_trace_ne env.importCRL (fetchedBytes env) none
        (by simp)
      rw [hf] at hd
      rw [updateCRL_reached_diff env us none h1 h2 he, hf, hd]
      simp
    · rw [importCount_updateCRL env us none h1 h2 he]
      simp
  · intro he
    rw [importCount_updateCRL env us (some "") h1 h2 he, hf]
    by_cases hb : rsp.body = ""
    · simp [hb]
    · rw [if_neg (fun hc => hb (Option.some_injective _ hc).symm), if_neg hb]

/-- Concrete instance of C4: no CRL ever installed; the fetched "PEM" is
pushed, and the guarded dereference returns the plain result. -/
theorem updateCRL_absent_vs_empty_witness :
    (diffStepGuarded (fun _ => .ok ()) "PEM" none =
      .ok (diffStep (fun _ => .ok ()) "PEM" none)) ∧
    Action.importCRLCall "PEM" ∈
      (UpdateCRL { okEnv with exportCRL := .ok none }).2 ∧
    importCount (UpdateCRL { okEnv with exportCRL := .ok none }).2 = 1 := by
  have h := updateCRL_absent_vs_empty { okEnv with exportCRL := .ok none }
    [[⟨1, 1⟩, ⟨2, 5⟩]] ⟨"PEM", none⟩ rfl rfl rfl
  exact ⟨h.1 _ _ _, (h.2.1 rfl).1, (h.2.1 rfl).2⟩

/-- A list marked entirely as revoked has no unrevoked entry. -/
theorem filter_unrevoked_map_true (l : List Cert) :
    (l.map (fun x => (x, true))).filter (fun p => !p.2) = [] := by
  induction l with
  | nil => rfl
  | cons c cs ih => simp [ih]

/-- The keep-newest selection leaves exactly one unrevoked certificate: one
of maximal issuance timestamp. -/
theorem revokeKeepNewest_unrevoked :
    ∀ crts : List Cert, crts ≠ [] →
      ∃ l, (revokeKeepNewest crts).filter (fun p => !p.2) = [(l, false)] ∧
        l ∈ crts ∧ l.issuedAt = maxIssued crts
  | [], h => absurd rfl h
  | [c], _ =>
    ⟨c, by simp [revokeKeepNewest], by simp, by simp [maxIssued]⟩
  | c :: d :: cs, _ => by
    by_cases hge : maxIssued (d :: cs) ≥ c.issuedAt
    · obtain ⟨l, hfil, hmem, hmax⟩ :=
        revokeKeepNewest_unrevoked (d :: cs) (by simp)
      refine ⟨l, ?_, List.mem_cons_of_mem c hmem, ?_⟩
      · simp [revokeKeepNewest, hge, hfil]
      · rw [hmax]
        exact (Nat.max_eq_right hge).symm
    · refine ⟨c, ?_, by simp, ?_⟩
      · simp [revokeKeepNewest, hge, filter_unrevoked_map_true]
      · exact (Nat.max_eq_left (le_of_not_le hge)).symm

/-- Claim C3: after a successful convergence run invoked by `UpdateCRL`
(keep-newest mode, the `false` argument of `revokeUserCertificates`), every
enumerated user with at least one certificate keeps exactly one certificate
unrevoked, and it is one of maximal issuance timestamp. -/
theorem convergence_keep_newest_invariant (env : Env)
    (users : List (List Cert))
    (_h1 : env.listUsers = .ok users)
    (_h2 : (convergeRevocations env.revokeUser users).1 = .ok ()) :
    ∀ u ∈ users, u ≠ [] →
      ∃ l, (revokeUserCertificates u false).filter (fun p => !p.2) =
          [(l, false)] ∧ l ∈ u ∧ l.issuedAt = maxIssued u := by
  intro u _ hne
  simpa [revokeUserCertificates] using revokeKeepNewest_unrevoked u hne

/-- Concrete instance of C3: a user with certificates issued at times 1 and
5 keeps exactly one unrevoked certificate, of timestamp 5. -/
theorem convergence_keep_newest_invariant_witness :
    ∃ l, (revokeUserCertificates [⟨1, 1⟩, ⟨2, 5⟩] false).filter
        (fun p => !p.2) = [(l, false)] ∧
      l ∈ [⟨1, 1⟩, ⟨2, 5⟩] ∧ l.issuedAt = maxIssued [⟨1, 1⟩, ⟨2, 5⟩] :=
  convergence_keep_newest_invariant okEnv [[⟨1, 1⟩, ⟨2, 5⟩]] rfl rfl
    [⟨1, 1⟩, ⟨2, 5⟩] (by simp) (by simp)

end CVPN
